import Mathlib

/-!
Shallow embedding of the `trello` Go client library (package `trello`,
most capable variant: `client.go` with full Board/List/ListService support).

The library issues single synchronous HTTP requests.  We embed:
  * the data model (`client`, `board`, `list`) — Go nil-able pointers and
    nil-able slices become `Option`;
  * request-URL construction (`fmt.Sprintf` string concatenation plus
    `url.QueryEscape`, modelled byte-for-byte on UTF-8 bytes);
  * each operation's control flow as a function of the transport outcome of
    its single request (`http.DefaultClient.Do` result and the JSON-decode
    result of the response body), recording the requests issued, the
    returned value/error, and whether the response body was closed.
-/

namespace Trello

/-- Go struct `client` (`client.go`): holds the API key and token supplied to
`NewClient`. -/
structure client where
  key : String
  token : String
deriving Repr, DecidableEq

/-- Opaque JSON values, for the intentionally untyped pass-through fields
(`descData`, `idOrganization`, `prefs`, `labelNames`).  The client never
interprets these. -/
inductive JsonValue where
  | null : JsonValue
  | bool (b : Bool) : JsonValue
  | num (n : Int) : JsonValue
  | str (s : String) : JsonValue
  | arr (elems : List JsonValue) : JsonValue
  | obj (fields : List (String × JsonValue)) : JsonValue

/-- Go struct `list`: a list resource.  `client` is the unexported
back-reference pointer (nil ↦ `none`), ignored by the JSON decoder. -/
structure list where
  client : Option client
  ID : String
  ListName : String

/-- Go struct `board`: a board resource.  `client` is the unexported
back-reference pointer (nil ↦ `none`); `BoardLists` is the optional
`lists` JSON field, a Go slice of `*list` (nil slice ↦ `none`). -/
structure board where
  client : Option client
  ID : String
  DescData : JsonValue
  Closed : Bool
  IDOrganization : JsonValue
  Pinned : Bool
  ShortURL : String
  Desc : String
  BoardName : String
  URL : String
  Prefs : List (String × JsonValue)
  LabelNames : List (String × JsonValue)
  BoardLists : Option (List list)

/-- Accessor `(b *board) GetID()`. -/
def board.GetID (b : board) : String := b.ID

/-- Accessor `(b *board) Name()`. -/
def board.Name (b : board) : String := b.BoardName

/-- Accessor `(l *list) GetID()`. -/
def list.GetID (l : list) : String := l.ID

/-- Accessor `(l *list) Name()`. -/
def list.Name (l : list) : String := l.ListName

/-- Elements of a Go slice modelled as `Option (List α)` (`none` = nil slice):
ranging over a nil slice visits nothing. -/
def goSliceElems {α : Type} (s : Option (List α)) : List α := s.getD []

/-- `const baseURL = "https://api.trello.com"`. -/
def baseURL : String := "https://api.trello.com"

/-! ### `url.QueryEscape`

Go's `url.QueryEscape` operates on the UTF-8 bytes of the string: bytes that
are ASCII letters, digits, or one of `-_.~` pass through, a space byte becomes
`+`, and every other byte becomes `%XX` with uppercase hexadecimal digits. -/

/-- Bytes `url.QueryEscape` leaves unescaped: ASCII alphanumerics and
`-` (45), `.` (46), `_` (95), `~` (126). -/
def isUnreservedByte (b : Nat) : Bool :=
  (65 ≤ b && b ≤ 90) || (97 ≤ b && b ≤ 122) || (48 ≤ b && b ≤ 57) ||
    b == 45 || b == 46 || b == 95 || b == 126

/-- Uppercase hexadecimal digit for `n < 16`. -/
def hexUpperDigit (n : Nat) : Char :=
  if n < 10 then Char.ofNat (48 + n) else Char.ofNat (55 + n)

/-- Escape one byte the way Go's `url.QueryEscape` does. -/
def escapeByte (b : Nat) : String :=
  if isUnreservedByte b then String.singleton (Char.ofNat b)
  else if b == 32 then "+"
  else String.singleton '%' ++ String.singleton (hexUpperDigit (b / 16)) ++
    String.singleton (hexUpperDigit (b % 16))

/-- Escape a byte sequence, concatenating the escapes in order. -/
def escapeBytes : List Nat → String
  | [] => ""
  | b :: bs => escapeByte b ++ escapeBytes bs

/-- The UTF-8 bytes of a string, as naturals (each `< 256`). -/
def utf8Bytes (s : String) : List Nat :=
  s.data.flatMap (fun ch => (String.utf8EncodeChar ch).map UInt8.toNat)

/-- Go's `url.QueryEscape`. -/
def queryEscape (s : String) : String := escapeBytes (utf8Bytes s)

/-! ### Request-URL construction (the `fmt.Sprintf` lines) -/

/-- URL built by `boardService.GetBoard`:
`"%s/1/boards/%s?key=%s"` plus `"&token=%s"` when `len(token) > 0`. -/
def getBoardURL (c : client) (id : String) : String :=
  let restURL := baseURL ++ "/1/boards/" ++ id ++ "?key=" ++ c.key
  if 0 < c.token.length then restURL ++ "&token=" ++ c.token else restURL

/-- URL built by `board.Lists`:
`"%s/1/boards/%s?key=%s&lists=all"` plus `"&token=%s"` when `len(token) > 0`. -/
def listsURL (c : client) (boardID : String) : String :=
  let restURL := baseURL ++ "/1/boards/" ++ boardID ++ "?key=" ++ c.key ++ "&lists=all"
  if 0 < c.token.length then restURL ++ "&token=" ++ c.token else restURL

/-- URL built by `list.Rename`:
`"%s/1/lists/%s/name?key=%s&value=%s"` with the new name query-escaped, plus
`"&token=%s"` when `len(token) > 0`. -/
def renameURL (c : client) (listID newName : String) : String :=
  let restURL := baseURL ++ "/1/lists/" ++ listID ++ "/name?key=" ++ c.key ++
    "&value=" ++ queryEscape newName
  if 0 < c.token.length then restURL ++ "&token=" ++ c.token else restURL

/-- URL built by `list.Close`:
`"%s/1/lists/%s/name?key=%s&value=true"` plus `"&token=%s"` when
`len(token) > 0`. -/
def closeURL (c : client) (listID : String) : String :=
  let restURL := baseURL ++ "/1/lists/" ++ listID ++ "/name?key=" ++ c.key ++ "&value=true"
  if 0 < c.token.length then restURL ++ "&token=" ++ c.token else restURL

/-- URL built by `listService.Create`:
`"%s/1/lists?key=%s&name=%s&idBoard=%s"` with name and boardID query-escaped,
plus `"&pos=%s"` when `len(pos) > 0`, plus `"&token=%s"` when
`len(token) > 0`. -/
def createURL (c : client) (name boardID pos : String) : String :=
  let u1 := baseURL ++ "/1/lists?key=" ++ c.key ++ "&name=" ++ queryEscape name ++
    "&idBoard=" ++ queryEscape boardID
  let u2 := if 0 < pos.length then u1 ++ "&pos=" ++ pos else u1
  if 0 < c.token.length then u2 ++ "&token=" ++ c.token else u2

/-! ### Operation behavior

Each operation builds one request with `http.NewRequest` (which cannot fail on
the URLs this code builds — the spec calls request-construction failure
"effectively unreachable"), issues it once with `http.DefaultClient.Do`, and
inspects the response.  We model an operation as a function of the transport
outcome of that single request: `Except String (Response β)`, where the
`error` case is a network/transport failure from `Do` (no response, no body)
and `Response β` carries the HTTP status together with the result that
`json.NewDecoder(resp.Body).Decode` would produce on the body (`decoded`,
unused by operations that never decode).  The `Outcome` records the requests
issued in order, the Go return value (`Except String` mirrors Go's
`(T, error)`), and whether the response body was opened/closed before
returning. -/

/-- One HTTP request: method and URL. -/
structure Request where
  method : String
  url : String
deriving Repr, DecidableEq

/-- An HTTP response as this client observes it: status code, status text
(Go's `resp.Status`, e.g. `"404 Not Found"`), and the outcome of JSON-decoding
the body into the operation's target type. -/
structure Response (β : Type) where
  statusCode : Int
  status : String
  decoded : Except String β

/-- Transport outcome of the operation's single `Do` call. -/
abbrev Transport (β : Type) : Type := Except String (Response β)

/-- Observable outcome of one operation. -/
structure Outcome (α : Type) where
  requests : List Request
  result : Except String α
  bodyOpened : Bool
  bodyClosed : Bool

/-- `(b *boardService) GetBoard(id)`: builds the GET request, issues it once;
on transport error returns the error (no body opened); otherwise decodes the
body into a `board`, closes the body on both the decode-failure and success
paths, and on success stamps the board with the owning client
(`d.client = b.client`).  No status-code check is performed. -/
def GetBoard (c : client) (id : String) (transport : Transport board) :
    Outcome board :=
  let req : Request := { method := "GET", url := getBoardURL c id }
  match transport with
  | .error e =>
      { requests := [req], result := .error e, bodyOpened := false, bodyClosed := false }
  | .ok resp =>
      match resp.decoded with
      | .error e =>
          { requests := [req], result := .error e, bodyOpened := true, bodyClosed := true }
      | .ok d =>
          { requests := [req], result := .ok { d with client := some c },
            bodyOpened := true, bodyClosed := true }

/-- `(b *board) Lists()`: re-fetches the board with `lists=all` (reading
`b.ID` and dereferencing `b.client`, passed here as `c` and `boardID`), closes
the body on both decode paths, then builds `ls := make([]List, len(d.BoardLists))`
(a non-nil slice, `some _`) and copies each decoded list in with its client
stamped (`list.client = b.client`).  No status-code check is performed. -/
def Lists (c : client) (boardID : String) (transport : Transport board) :
    Outcome (Option (List list)) :=
  let req : Request := { method := "GET", url := listsURL c boardID }
  match transport with
  | .error e =>
      { requests := [req], result := .error e, bodyOpened := false, bodyClosed := false }
  | .ok resp =>
      match resp.decoded with
      | .error e =>
          { requests := [req], result := .error e, bodyOpened := true, bodyClosed := true }
      | .ok d =>
          { requests := [req],
            result := .ok (some ((goSliceElems d.BoardLists).map
              (fun l => { l with client := some c }))),
            bodyOpened := true, bodyClosed := true }

/-- `(l *list) Rename(newName)`: builds the PUT request (reading `l.ID` and
dereferencing `l.client`, passed here as `c` and `listID`), issues it once;
transport error is returned as-is; a status outside 200–299 yields
`errors.New("bad response code: " + resp.Status)`; otherwise returns nil.
The response body is never closed on any path. -/
def Rename (c : client) (listID newName : String) (transport : Transport Unit) :
    Outcome Unit :=
  let req : Request := { method := "PUT", url := renameURL c listID newName }
  match transport with
  | .error e =>
      { requests := [req], result := .error e, bodyOpened := false, bodyClosed := false }
  | .ok resp =>
      if resp.statusCode < 200 ∨ resp.statusCode > 299 then
        { requests := [req], result := .error ("bad response code: " ++ resp.status),
          bodyOpened := true, bodyClosed := false }
      else
        { requests := [req], result := .ok (), bodyOpened := true, bodyClosed := false }

/-- `(l *list) Close()`: builds the PUT request to the `/name` endpoint with
`value=true` (reading `l.ID` and dereferencing `l.client`), issues it once;
same status handling as `Rename`.  The response body is never closed on any
path. -/
def Close (c : client) (listID : String) (transport : Transport Unit) :
    Outcome Unit :=
  let req : Request := { method := "PUT", url := closeURL c listID }
  match transport with
  | .error e =>
      { requests := [req], result := .error e, bodyOpened := false, bodyClosed := false }
  | .ok resp =>
      if resp.statusCode < 200 ∨ resp.statusCode > 299 then
        { requests := [req], result := .error ("bad response code: " ++ resp.status),
          bodyOpened := true, bodyClosed := false }
      else
        { requests := [req], result := .ok (), bodyOpened := true, bodyClosed := false }

/-- `(l *listService) Create(name, boardID, pos)`: builds the POST request,
issues it once; transport error is returned as-is; a status outside 200–299
yields `errors.New("bad response code: " + resp.Status)` WITHOUT closing the
body; otherwise decodes the body into `ll := list{client: l.client}` (the JSON
decoder fills only the exported `ID`/`ListName` fields, so the pre-stamped
client is preserved), closing the body on both the decode-failure and success
paths. -/
def Create (c : client) (name boardID pos : String) (transport : Transport list) :
    Outcome list :=
  let req : Request := { method := "POST", url := createURL c name boardID pos }
  match transport with
  | .error e =>
      { requests := [req], result := .error e, bodyOpened := false, bodyClosed := false }
  | .ok resp =>
      if resp.statusCode < 200 ∨ resp.statusCode > 299 then
        { requests := [req], result := .error ("bad response code: " ++ resp.status),
          bodyOpened := true, bodyClosed := false }
      else
        match resp.decoded with
        | .error e =>
            { requests := [req], result := .error e, bodyOpened := true, bodyClosed := true }
        | .ok d =>
            { requests := [req],
              result := .ok { client := some c, ID := d.ID, ListName := d.ListName },
              bodyOpened := true, bodyClosed := true }

/-! ### Helper notions and lemmas -/

/-- `sub` occurs as a contiguous substring of `s`. -/
def containsSub (s sub : String) : Prop := ∃ a b, s = a ++ sub ++ b

/-- Characters that can appear in `queryEscape` output: ASCII alphanumerics
(covering the uppercase hex digits), the four unreserved marks, `%`, and `+`.
Notably excludes the URL metacharacters space, `&`, `?`, `=`, `/`, `#`. -/
def isSafeQueryChar (ch : Char) : Bool :=
  (ch.isAlpha && ch.toNat < 128) || ch.isDigit ||
    ch == '-' || ch == '_' || ch == '.' || ch == '~' || ch == '%' || ch == '+'

set_option maxRecDepth 4096 in
theorem escapeByte_safe : ∀ b < 256, ((escapeByte b).data.all isSafeQueryChar) = true := by
  decide

theorem escapeBytes_safe (l : List Nat) (h : ∀ b ∈ l, b < 256) :
    ((escapeBytes l).data.all isSafeQueryChar) = true := by
  induction l with
  | nil => rfl
  | cons b bs ih =>
      have hb : b < 256 := h b (List.mem_cons_self b bs)
      have hbs : ∀ x ∈ bs, x < 256 := fun x hx => h x (List.mem_cons_of_mem b hx)
      show (((escapeByte b ++ escapeBytes bs)).data.all isSafeQueryChar) = true
      rw [String.data_append, List.all_append, escapeByte_safe b hb, ih hbs]
      rfl

theorem utf8Bytes_lt (s : String) : ∀ b ∈ utf8Bytes s, b < 256 := by
  intro b hb
  rcases List.mem_flatMap.mp hb with ⟨ch, _, hmem⟩
  rcases List.mem_map.mp hmem with ⟨u, _, rfl⟩
  exact u.toNat_lt

/-- Every character of `queryEscape` output is a safe query character; in
particular the output contains no space, `&`, `?`, `=`, `/`, or `#`. -/
theorem queryEscape_safe (s : String) :
    ((queryEscape s).data.all isSafeQueryChar) = true :=
  escapeBytes_safe (utf8Bytes s) (utf8Bytes_lt s)

/-- The path component of a URL: everything before the first `?`. -/
def urlPath (u : String) : String := String.mk (u.data.takeWhile (fun ch => ch != '?'))

/-- The optional `&token=` suffix appended when the client's token is
non-empty. -/
def tokSuffix (c : client) : String :=
  if 0 < c.token.length then "&token=" ++ c.token else ""

theorem getBoardURL_eq (c : client) (id : String) :
    getBoardURL c id =
      baseURL ++ "/1/boards/" ++ id ++ "?key=" ++ c.key ++ tokSuffix c := by
  by_cases h : 0 < c.token.length <;>
    simp [getBoardURL, tokSuffix, h, String.append_assoc]

theorem listsURL_eq (c : client) (boardID : String) :
    listsURL c boardID =
      baseURL ++ "/1/boards/" ++ boardID ++ "?key=" ++ c.key ++ "&lists=all" ++
        tokSuffix c := by
  by_cases h : 0 < c.token.length <;>
    simp [listsURL, tokSuffix, h, String.append_assoc]
  rw [← String.append_assoc ("&lists=all" : String) "&token=" c.token]
  rfl

theorem renameURL_eq (c : client) (listID newName : String) :
    renameURL c listID newName =
      baseURL ++ "/1/lists/" ++ listID ++ "/name?key=" ++ c.key ++ "&value=" ++
        queryEscape newName ++ tokSuffix c := by
  by_cases h : 0 < c.token.length <;>
    simp [renameURL, tokSuffix, h, String.append_assoc]

theorem closeURL_eq (c : client) (listID : String) :
    closeURL c listID =
      baseURL ++ "/1/lists/" ++ listID ++ "/name?key=" ++ c.key ++ "&value=true" ++
        tokSuffix c := by
  by_cases h : 0 < c.token.length <;>
    simp [closeURL, tokSuffix, h, String.append_assoc]
  rw [← String.append_assoc ("&value=true" : String) "&token=" c.token]
  rfl

theorem createURL_eq (c : client) (name boardID pos : String) :
    createURL c name boardID pos =
      baseURL ++ "/1/lists?key=" ++ c.key ++ "&name=" ++ queryEscape name ++
        "&idBoard=" ++ queryEscape boardID ++
        (if 0 < pos.length then "&pos=" ++ pos else "") ++ tokSuffix c := by
  by_cases hp : 0 < pos.length <;> by_cases h : 0 < c.token.length <;>
    simp [createURL, tokSuffix, hp, h, String.append_assoc]

theorem closeURL_eq_renameURL_true (c : client) (listID : String) :
    closeURL c listID = renameURL c listID "true" := by
  rw [closeURL_eq, renameURL_eq,
    show queryEscape "true" = "true" from by decide]
  simp [String.append_assoc, ← String.append_assoc ("&value=" : String) "true",
    show ("&value=" : String) ++ "true" = "&value=true" from rfl]

/-! ### The claims -/

/-- C10: for every list, `Close()` is observationally equivalent to
`Rename("true")`: given the same client, list id, and transport outcome, the
two operations produce identical outcomes — the same single PUT request (the
`/name` endpoint with `value=true`, since `url.QueryEscape("true") = "true"`),
the same result, and the same body handling.  In particular `Close` never
touches a `closed` field on the wire. -/
theorem close_observationally_equals_rename_true (c : client) (listID : String)
    (t : Transport Unit) :
    Close c listID t = Rename c listID "true" t := by
  rcases t with e | resp <;>
    simp [Close, Rename, closeURL_eq_renameURL_true]

/-- C4: `GetBoard(id)` issues exactly one GET request; its URL (the string the
client queries with) contains the given id and `key=` followed by the key;
with an empty token the URL is exactly the base form with nothing appended (so
no `&token=` parameter), and with a non-empty token the URL contains
`&token=` followed by the token. -/
theorem getBoard_single_request_id_key_token (c : client) (id : String)
    (t : Transport board) :
    (GetBoard c id t).requests = [{ method := "GET", url := getBoardURL c id }] ∧
    containsSub (getBoardURL c id) id ∧
    containsSub (getBoardURL c id) ("key=" ++ c.key) ∧
    (c.token = "" → getBoardURL c id = baseURL ++ "/1/boards/" ++ id ++ "?key=" ++ c.key) ∧
    (c.token ≠ "" → containsSub (getBoardURL c id) ("&token=" ++ c.token)) := by
  refine ⟨?_, ?_, ?_, ?_, ?_⟩
  · rcases t with e | ⟨sc, st, dec⟩
    · rfl
    · rcases dec with e | d <;> rfl
  · refine ⟨baseURL ++ "/1/boards/", "?key=" ++ c.key ++ tokSuffix c, ?_⟩
    rw [getBoardURL_eq]
    simp [String.append_assoc]
  · refine ⟨baseURL ++ "/1/boards/" ++ id ++ "?", tokSuffix c, ?_⟩
    rw [getBoardURL_eq]
    simp [String.append_assoc]
    rw [← String.append_assoc ("?" : String) "key=" (c.key ++ tokSuffix c)]
    rfl
  · intro h
    rw [getBoardURL_eq, tokSuffix, h]
    simp
  · intro h
    have hl : 0 < c.token.length := by
      cases hc : c.token with
      | mk l =>
          cases l with
          | nil => exact absurd hc h
          | cons a as => simp [String.length, hc]
    refine ⟨baseURL ++ "/1/boards/" ++ id ++ "?key=" ++ c.key, "", ?_⟩
    rw [getBoardURL_eq, tokSuffix, if_pos hl]
    simp

/-- Witness for C4: concrete instances for both token cases (the spec's own
scenario `key="K"`, `token=""`, board id `"B1"`, and a non-empty-token run). -/
theorem getBoard_single_request_id_key_token_witness :
    getBoardURL ⟨"K", ""⟩ "B1" = baseURL ++ "/1/boards/" ++ "B1" ++ "?key=" ++ "K" ∧
    containsSub (getBoardURL ⟨"K", "T"⟩ "B1") ("&token=" ++ "T") :=
  ⟨(getBoard_single_request_id_key_token ⟨"K", ""⟩ "B1" (Except.error "")).2.2.2.1 rfl,
   (getBoard_single_request_id_key_token ⟨"K", "T"⟩ "B1" (Except.error "")).2.2.2.2
     (by decide)⟩

/-- C5: when the re-fetch response decodes to a board whose `lists` slice is
nil (absent) or empty, `Board.Lists()` returns a nil error together with an
empty but non-nil collection (`make([]List, 0)` is `some []`, never `none`). -/
theorem lists_empty_board_gives_empty_non_nil (c : client) (boardID : String)
    (sc : Int) (st : String) (d : board)
    (h : d.BoardLists = none ∨ d.BoardLists = some []) :
    (Lists c boardID (Except.ok ⟨sc, st, Except.ok d⟩)).result =
      Except.ok (some []) := by
  rcases h with h | h <;> simp [Lists, goSliceElems, h]

/-- Witness for C5: a concrete board with an absent `lists` field. -/
theorem lists_empty_board_gives_empty_non_nil_witness :
    (Lists ⟨"K", ""⟩ "B1" (Except.ok ⟨200, "200 OK", Except.ok
        ⟨none, "B1", JsonValue.null, false, JsonValue.null, false, "", "",
          "Roadmap", "", [], [], none⟩⟩)).result = Except.ok (some []) :=
  lists_empty_board_gives_empty_non_nil ⟨"K", ""⟩ "B1" 200 "200 OK" _ (Or.inl rfl)

/-- C7: the URL `Create(name, boardID, pos)` requests carries a `&pos=`
parameter exactly when `pos` is non-empty: for non-empty `pos` the URL splits
around `&pos=` followed by `pos`, and for empty `pos` the URL is exactly the
stem with the optional token suffix — nothing about `pos` appended. -/
theorem create_pos_param_iff_nonempty (c : client) (name boardID pos : String) :
    (0 < pos.length →
      ∃ a b, createURL c name boardID pos = a ++ "&pos=" ++ pos ++ b) ∧
    (pos = "" →
      createURL c name boardID pos =
        baseURL ++ "/1/lists?key=" ++ c.key ++ "&name=" ++ queryEscape name ++
          "&idBoard=" ++ queryEscape boardID ++ tokSuffix c) := by
  constructor
  · intro hp
    refine ⟨baseURL ++ "/1/lists?key=" ++ c.key ++ "&name=" ++ queryEscape name ++
      "&idBoard=" ++ queryEscape boardID, tokSuffix c, ?_⟩
    rw [createURL_eq, if_pos hp]
    simp [String.append_assoc]
  · intro hp
    rw [createURL_eq, hp]
    simp

/-- Witness for C7: both cases at concrete inputs. -/
theorem create_pos_param_iff_nonempty_witness :
    (∃ a b, createURL ⟨"K", ""⟩ "todo" "B1" "bottom" = a ++ "&pos=" ++ "bottom" ++ b) ∧
    createURL ⟨"K", ""⟩ "todo" "B1" "" =
      baseURL ++ "/1/lists?key=" ++ "K" ++ "&name=" ++ queryEscape "todo" ++
        "&idBoard=" ++ queryEscape "B1" ++ tokSuffix ⟨"K", ""⟩ :=
  ⟨(create_pos_param_iff_nonempty ⟨"K", ""⟩ "todo" "B1" "bottom").1 (by decide),
   (create_pos_param_iff_nonempty ⟨"K", ""⟩ "todo" "B1" "").2 rfl⟩

/-- C9: only `name`/`newName` (in `Rename`/`Create`) and `boardID` (in
`Create`) pass through `queryEscape`; the board id in `GetBoard`/`Lists`, the
list id in `Rename`/`Close`, the key, the token, and `pos` are concatenated
into the URL verbatim.  Concretely, a board id containing `?` shifts the URL's
path/query split: the path of the request for id `"a?b=c"` ends at the `?`
inside the id. -/
theorem only_names_escaped_other_values_verbatim :
    (∀ c id, getBoardURL c id =
        baseURL ++ "/1/boards/" ++ id ++ "?key=" ++ c.key ++ tokSuffix c) ∧
    (∀ c boardID, listsURL c boardID =
        baseURL ++ "/1/boards/" ++ boardID ++ "?key=" ++ c.key ++ "&lists=all" ++
          tokSuffix c) ∧
    (∀ c listID newName, renameURL c listID newName =
        baseURL ++ "/1/lists/" ++ listID ++ "/name?key=" ++ c.key ++ "&value=" ++
          queryEscape newName ++ tokSuffix c) ∧
    (∀ c listID, closeURL c listID =
        baseURL ++ "/1/lists/" ++ listID ++ "/name?key=" ++ c.key ++ "&value=true" ++
          tokSuffix c) ∧
    (∀ c name boardID pos, createURL c name boardID pos =
        baseURL ++ "/1/lists?key=" ++ c.key ++ "&name=" ++ queryEscape name ++
          "&idBoard=" ++ queryEscape boardID ++
          (if 0 < pos.length then "&pos=" ++ pos else "") ++ tokSuffix c) ∧
    (∀ c, tokSuffix c = if 0 < c.token.length then "&token=" ++ c.token else "") ∧
    urlPath (getBoardURL ⟨"K", ""⟩ "a?b=c") = "https://api.trello.com/1/boards/a" ∧
    getBoardURL ⟨"K", ""⟩ "a?b=c" = "https://api.trello.com/1/boards/a?b=c?key=K" :=
  ⟨getBoardURL_eq, listsURL_eq, renameURL_eq, closeURL_eq, createURL_eq,
   fun _ => rfl, by decide, by decide⟩

/-- C8: every `board` returned by `GetBoard`, every `list` in the collection
returned by `Board.Lists()`, and every `list` returned by
`ListService.Create` carries `some` of the producing client as its
back-reference (never the nil pointer `none`), so the instance methods can
dereference it for the key/token. -/
theorem entities_carry_producing_client :
    (∀ c id t b, (GetBoard c id t).result = Except.ok b → b.client = some c) ∧
    (∀ c boardID t s, (Lists c boardID t).result = Except.ok s →
      ∀ l ∈ goSliceElems s, l.client = some c) ∧
    (∀ c name boardID pos t l, (Create c name boardID pos t).result = Except.ok l →
      l.client = some c) := by
  refine ⟨?_, ?_, ?_⟩
  · intro c id t b h
    rcases t with e | ⟨sc, st, dec⟩
    · simp [GetBoard] at h
    · rcases dec with e | d
      · simp [GetBoard] at h
      · simp [GetBoard] at h
        subst h
        rfl
  · intro c boardID t s h l hl
    rcases t with e | ⟨sc, st, dec⟩
    · simp [Lists] at h
    · rcases dec with e | d
      · simp [Lists] at h
      · simp [Lists] at h
        subst h
        simp [goSliceElems] at hl
        rcases hl with ⟨x, _, rfl⟩
        rfl
  · intro c name boardID pos t l h
    rcases t with e | ⟨sc, st, dec⟩
    · simp [Create] at h
    · by_cases hs : sc < 200 ∨ sc > 299
      · simp [Create, hs] at h
      · rcases dec with e | d
        · simp [Create, hs] at h
        · simp [Create, hs] at h
          subst h
          rfl

/-- Witness for C8: concrete successful runs of all three operations. -/
theorem entities_carry_producing_client_witness :
    (({ client := some ⟨"K", "T"⟩, ID := "B1", DescData := JsonValue.null,
        Closed := false, IDOrganization := JsonValue.null, Pinned := false,
        ShortURL := "", Desc := "", BoardName := "Roadmap", URL := "",
        Prefs := [], LabelNames := [], BoardLists := none } : board).client =
      some ⟨"K", "T"⟩) ∧
    (∀ l ∈ goSliceElems (some [(⟨some ⟨"K", "T"⟩, "L1", "todo"⟩ : list)]),
      l.client = some ⟨"K", "T"⟩) ∧
    (({ client := some ⟨"K", "T"⟩, ID := "L2", ListName := "doing" } : list).client =
      some ⟨"K", "T"⟩) :=
  ⟨(entities_carry_producing_client).1 ⟨"K", "T"⟩ "B1"
      (Except.ok ⟨200, "200 OK", Except.ok ⟨none, "B1", JsonValue.null, false,
        JsonValue.null, false, "", "", "Roadmap", "", [], [], none⟩⟩) _ rfl,
   (entities_carry_producing_client).2.1 ⟨"K", "T"⟩ "B1"
      (Except.ok ⟨200, "200 OK", Except.ok ⟨none, "B1", JsonValue.null, false,
        JsonValue.null, false, "", "", "Roadmap", "", [], [],
        some [⟨none, "L1", "todo"⟩]⟩⟩) _ rfl,
   (entities_carry_producing_client).2.2 ⟨"K", "T"⟩ "doing" "B1" ""
      (Except.ok ⟨200, "200 OK", Except.ok ⟨none, "L2", "doing"⟩⟩) _ rfl⟩

/-- C6: for a name containing URL metacharacters (space or `&`), the outgoing
`Rename` and `Create` URLs carry `queryEscape` of that name (and `Create`
also `queryEscape` of the boardID) spliced into the query string, and
`queryEscape` output consists only of safe query characters — in particular
space and `&` never occur in it. -/
theorem metachar_names_percent_escaped (c : client) (listID name boardID pos : String)
    (h : ∃ ch ∈ name.data, ch = ' ' ∨ ch = '&') :
    (∃ a b, renameURL c listID name = a ++ queryEscape name ++ b) ∧
    (∃ a b, createURL c name boardID pos = a ++ queryEscape name ++ b) ∧
    (∃ a b, createURL c name boardID pos = a ++ queryEscape boardID ++ b) ∧
    ((queryEscape name).data.all isSafeQueryChar = true) ∧
    ((queryEscape boardID).data.all isSafeQueryChar = true) ∧
    isSafeQueryChar ' ' = false ∧ isSafeQueryChar '&' = false := by
  refine ⟨?_, ?_, ?_, queryEscape_safe name, queryEscape_safe boardID,
    by decide, by decide⟩
  · refine ⟨baseURL ++ "/1/lists/" ++ listID ++ "/name?key=" ++ c.key ++ "&value=",
      tokSuffix c, ?_⟩
    rw [renameURL_eq]
  · refine ⟨baseURL ++ "/1/lists?key=" ++ c.key ++ "&name=",
      "&idBoard=" ++ queryEscape boardID ++
        (if 0 < pos.length then "&pos=" ++ pos else "") ++ tokSuffix c, ?_⟩
    rw [createURL_eq]
    simp [String.append_assoc]
  · refine ⟨baseURL ++ "/1/lists?key=" ++ c.key ++ "&name=" ++ queryEscape name ++
      "&idBoard=", (if 0 < pos.length then "&pos=" ++ pos else "") ++ tokSuffix c, ?_⟩
    rw [createURL_eq]
    simp [String.append_assoc]

/-- Witness for C6: the name `"a b&c"` (a space and an `&`). -/
theorem metachar_names_percent_escaped_witness :
    ∃ a b, renameURL ⟨"K", ""⟩ "L1" "a b&c" = a ++ queryEscape "a b&c" ++ b :=
  (metachar_names_percent_escaped ⟨"K", ""⟩ "L1" "a b&c" "B 1" ""
    ⟨' ', by decide, Or.inl rfl⟩).1

/-- Follows the spec's words, for comparison with the code (C1): §4.4 calls
`Rename`/`Close` "a single PUT request to a list-scoped field-update
endpoint" and §6 gives that endpoint's wire format,
`PUT {base}/1/lists/{id}/{field}?key={key}[&token={token}]&value={value}`.
"Sets the list's `closed` field to `true`" is this request with field
`closed` and value `true`. -/
def specFieldUpdateRequest (c : client) (listID fieldName value : String) : Request :=
  { method := "PUT"
    url := baseURL ++ "/1/lists/" ++ listID ++ "/" ++ fieldName ++ "?key=" ++ c.key ++
      tokSuffix c ++ "&value=" ++ value }

/-- Counterexample to C1 as stated: at client key `"K"`, empty token, list id
`"L1"`, the single PUT that `Close()` issues goes to the `name` endpoint with
`value=true`; it is not the spec's `closed`-field update request. -/
theorem close_does_not_update_closed_field :
    (Close ⟨"K", ""⟩ "L1" (Except.error "net")).requests =
      [{ method := "PUT",
         url := "https://api.trello.com/1/lists/L1/name?key=K&value=true" }] ∧
    specFieldUpdateRequest ⟨"K", ""⟩ "L1" "closed" "true" =
      { method := "PUT",
        url := "https://api.trello.com/1/lists/L1/closed?key=K&value=true" } ∧
    (Close ⟨"K", ""⟩ "L1" (Except.error "net")).requests ≠
      [specFieldUpdateRequest ⟨"K", ""⟩ "L1" "closed" "true"] := by
  decide

/-- C1 as amended: `Rename(newName)` issues a single PUT whose URL updates the
list's `name` field to the URL-escaped new value; `Close()` issues a single
PUT to that same `name` field endpoint with value `true` (not a `closed`
field); each attaches the key and, when non-empty, the token as query
parameters (the `tokSuffix` factor). -/
theorem rename_and_close_put_name_endpoint (c : client) (listID newName : String)
    (tr tc : Transport Unit) :
    (Rename c listID newName tr).requests =
      [{ method := "PUT", url := renameURL c listID newName }] ∧
    (Close c listID tc).requests =
      [{ method := "PUT", url := closeURL c listID }] ∧
    renameURL c listID newName =
      baseURL ++ "/1/lists/" ++ listID ++ "/name?key=" ++ c.key ++ "&value=" ++
        queryEscape newName ++ tokSuffix c ∧
    closeURL c listID =
      baseURL ++ "/1/lists/" ++ listID ++ "/name?key=" ++ c.key ++ "&value=true" ++
        tokSuffix c := by
  refine ⟨?_, ?_, renameURL_eq c listID newName, closeURL_eq c listID⟩
  · rcases tr with e | resp
    · rfl
    · by_cases hs : resp.statusCode < 200 ∨ resp.statusCode > 299 <;>
        simp [Rename, hs]
  · rcases tc with e | resp
    · rfl
    · by_cases hs : resp.statusCode < 200 ∨ resp.statusCode > 299 <;>
        simp [Close, hs]

/-- C2 is the intent but the code leaks (code bug): `Rename` and `Close`
return on every path without ever calling `resp.Body.Close()`, and `Create`
returns on its non-2xx path without closing; only `GetBoard`/`Lists` (and
`Create`'s decode paths) close the body.  Shown at concrete inputs: a 200
response to `Rename`/`Close` and a 404 response to `Create` all leave the
opened body unclosed, while `GetBoard` closes it even on decode failure. -/
theorem rename_close_create_leak_response_body :
    ((Rename ⟨"K", ""⟩ "L1" "x" (Except.ok ⟨200, "200 OK", Except.ok ()⟩)).result =
        Except.ok () ∧
      (Rename ⟨"K", ""⟩ "L1" "x" (Except.ok ⟨200, "200 OK", Except.ok ()⟩)).bodyOpened =
        true ∧
      (Rename ⟨"K", ""⟩ "L1" "x" (Except.ok ⟨200, "200 OK", Except.ok ()⟩)).bodyClosed =
        false) ∧
    ((Close ⟨"K", ""⟩ "L1" (Except.ok ⟨200, "200 OK", Except.ok ()⟩)).bodyOpened =
        true ∧
      (Close ⟨"K", ""⟩ "L1" (Except.ok ⟨200, "200 OK", Except.ok ()⟩)).bodyClosed =
        false) ∧
    ((Create ⟨"K", ""⟩ "todo" "B1" ""
        (Except.ok ⟨404, "404 Not Found", Except.error "ignored"⟩)).bodyOpened = true ∧
      (Create ⟨"K", ""⟩ "todo" "B1" ""
        (Except.ok ⟨404, "404 Not Found", Except.error "ignored"⟩)).bodyClosed = false) ∧
    (GetBoard ⟨"K", ""⟩ "B1"
        (Except.ok ⟨200, "200 OK", Except.error "bad json"⟩)).bodyClosed = true := by
  refine ⟨⟨rfl, rfl, rfl⟩, ⟨rfl, rfl⟩, ⟨?_, ?_⟩, rfl⟩ <;> decide

/-- Counterexample to C3 as stated: a 200 (2xx) response to `Create` whose
body fails to decode makes `Create` return the decode error, not nil. -/
theorem create_2xx_decode_failure_returns_error :
    ((200 : Int) ≥ 200 ∧ (200 : Int) ≤ 299) ∧
    (Create ⟨"K", ""⟩ "todo" "B1" ""
        (Except.ok ⟨200, "200 OK", Except.error "unexpected EOF"⟩)).result =
      Except.error "unexpected EOF" :=
  ⟨⟨by norm_num, by norm_num⟩, rfl⟩

/-- C3 as amended: for any received response, `Rename` and `Close` return nil
exactly when the status is in 200–299 and otherwise the error
`"bad response code: " ++ status`; `Create` returns that same error on a
non-2xx status, and on a 2xx status returns nil exactly when the body decodes
(propagating the decode error otherwise).  The error message contains the
response's status text, and each call issues exactly one request (no retry),
whatever the transport outcome. -/
theorem status_ranges_and_single_request (c : client)
    (listID newName name boardID pos st : String) (sc : Int)
    (du : Except String Unit) (dl : Except String list)
    (tu : Transport Unit) (tl : Transport list) :
    (Rename c listID newName (Except.ok ⟨sc, st, du⟩)).result =
      (if sc < 200 ∨ sc > 299 then Except.error ("bad response code: " ++ st)
       else Except.ok ()) ∧
    (Close c listID (Except.ok ⟨sc, st, du⟩)).result =
      (if sc < 200 ∨ sc > 299 then Except.error ("bad response code: " ++ st)
       else Except.ok ()) ∧
    (Create c name boardID pos (Except.ok ⟨sc, st, dl⟩)).result =
      (if sc < 200 ∨ sc > 299 then Except.error ("bad response code: " ++ st)
       else match dl with
            | Except.error e => Except.error e
            | Except.ok d =>
                Except.ok { client := some c, ID := d.ID, ListName := d.ListName }) ∧
    containsSub ("bad response code: " ++ st) st ∧
    (Rename c listID newName tu).requests.length = 1 ∧
    (Close c listID tu).requests.length = 1 ∧
    (Create c name boardID pos tl).requests.length = 1 := by
  refine ⟨?_, ?_, ?_, ⟨"bad response code: ", "", by simp⟩, ?_, ?_, ?_⟩
  · by_cases hs : sc < 200 ∨ sc > 299 <;> simp [Rename, hs]
  · by_cases hs : sc < 200 ∨ sc > 299 <;> simp [Close, hs]
  · by_cases hs : sc < 200 ∨ sc > 299
    · simp [Create, hs]
    · rcases dl with e | d <;> simp [Create, hs]
  · rcases tu with e | resp
    · rfl
    · by_cases hs : resp.statusCode < 200 ∨ resp.statusCode > 299 <;>
        simp [Rename, hs]
  · rcases tu with e | resp
    · rfl
    · by_cases hs : resp.statusCode < 200 ∨ resp.statusCode > 299 <;>
        simp [Close, hs]
  · rcases tl with e | ⟨sc2, st2, dec⟩
    · rfl
    · by_cases hs : sc2 < 200 ∨ sc2 > 299
      · simp [Create, hs]
      · rcases dec with e | d <;> simp [Create, hs]

end Trello
